import Mathlib

/-!
# Shallow embedding of the rwlog crate (src/lib.rs, src/protocol.rs, src/receiver.rs)

Rust values are embedded as follows: bytes and unsigned machine integers
become `Nat` (with explicit `% 2^w` where a Rust cast truncates), `i32`
becomes `Int`, byte buffers become `List Nat`, fallible code returns the
three-valued result `DRes` distinguishing a clean absence (`Option::None`
or `Err`) from a thread panic (`todo!`, `.expect`, out-of-range slice).
External crates (the chrono local-timezone calendar, sockets, channels)
are not code of this repository: the calendar is a Boolean parameter of
the decoder, a socket send or channel state is a Boolean argument, and
the byte buffers the codec produces or consumes are passed directly.
-/

/-- Result of running a piece of Rust code: `crash` models a panic of the
executing thread, `fail` models a clean `None`/`Err` return, `ok` a value. -/
inductive DRes (α : Type) where
  | crash : DRes α
  | fail : DRes α
  | ok : α → DRes α
deriving DecidableEq, Repr

/-- The five log severities of protocol.rs (repr u8, discriminants 0..4).
lib.rs declares an identical enum; one embedding serves both. -/
inductive Level where
  | Trace
  | Information
  | Warning
  | Error
  | Fatal
deriving DecidableEq, Repr

/-- Rust discriminant of a `Level` (the value of `level as u8`). -/
def Level.toU8 : Level → Nat
  | .Trace => 0
  | .Information => 1
  | .Warning => 2
  | .Error => 3
  | .Fatal => 4

/-- `Level::try_from(u8)` via `TryFromPrimitive`: succeeds exactly on 0..4. -/
def Level.tryFromU8 : Nat → Option Level
  | 0 => some .Trace
  | 1 => some .Information
  | 2 => some .Warning
  | 3 => some .Error
  | 4 => some .Fatal
  | _ => none

/-- Derived `PartialOrd` on the Rust enum compares discriminants;
`a.ge b` is the Rust expression `a >= b`. -/
def Level.ge (a b : Level) : Bool := decide (b.toU8 ≤ a.toU8)

/-- `SupportedTypes`: the tagged numeric payload of a T2 message. Float
payload values are not representable and carry no data here; every claim
only inspects the presence or the tag of a payload, never a float value. -/
inductive SupportedTypes where
  | U8 : Nat → SupportedTypes
  | U16 : Nat → SupportedTypes
  | U32 : Nat → SupportedTypes
  | U64 : Nat → SupportedTypes
  | I8 : Int → SupportedTypes
  | I16 : Int → SupportedTypes
  | I32 : Int → SupportedTypes
  | I64 : Int → SupportedTypes
  | F32 : SupportedTypes
  | F64 : SupportedTypes
deriving DecidableEq, Repr

/-- Calendar fields of a `chrono::DateTime<Local>` as the codec reads them:
`year()` is `i32`, the other accessors return unsigned values. -/
structure Timestamp where
  year : Int
  month : Nat
  day : Nat
  hour : Nat
  minute : Nat
  second : Nat
  nanosecond : Nat
deriving DecidableEq, Repr

/-- `Message` of protocol.rs. `text` and `file` are UTF-8 byte lists
(`String::as_bytes` and `String::len` act on bytes). lib.rs declares the
same struct without `sender`; the embedding keeps the superset. -/
structure Message where
  timestamp : Timestamp
  level : Level
  text : List Nat
  value : Option SupportedTypes
  file : List Nat
  line : Nat
  sender : Option String
deriving DecidableEq, Repr

/-- `HeaderV1`: decode scratch struct of protocol.rs. -/
structure HeaderV1 where
  protocol_version : Nat
  message_type : Nat
  message_count : Nat
  timestamp_year : Nat
  timestamp_month : Nat
  timestamp_day : Nat
  timestamp_hour : Nat
  timestamp_minute : Nat
  timestamp_second : Nat
  level : Nat
  timestamp_nanosecond : Nat
  line : Nat
  file_name_len : Nat
  file : List Nat
deriving DecidableEq, Repr

/-- `HEADER_LEN_V1`: size of the v1 header without the file name. -/
def HEADER_LEN_V1 : Nat := 22

/-- Bytes of `write_u16::<NetworkEndian>(n)`: big-endian, truncating to 16 bits. -/
def be16 (n : Nat) : List Nat := [n / 256 % 256, n % 256]

/-- Bytes of `write_u32::<NetworkEndian>(n)`: big-endian, truncating to 32 bits. -/
def be32 (n : Nat) : List Nat :=
  [n / 16777216 % 256, n / 65536 % 256, n / 256 % 256, n % 256]

/-- Big-endian value of a byte list. -/
def beVal (l : List Nat) : Nat := l.foldl (fun acc b => acc * 256 + b) 0

/-- Big-endian value of the `len` bytes of `buf` starting at offset `off`. -/
def sliceVal (buf : List Nat) (off len : Nat) : Nat := beVal ((buf.drop off).take len)

/-- `encode_header_v1` of protocol.rs: the sequence of `write_` calls into
the presized slice `buffer[..22 + file.len()]`, followed by
`copy_from_slice(file)`; each write appends at the cursor, so the slice
contents equal this concatenation. `year() as u16` truncates the `i32`
year to its low 16 bits; the `u32` calendar accessors are cast `as u8`. -/
def encode_header_v1 (m : Message) (message_type : Nat) : List Nat :=
  [1, message_type % 256]
    ++ be16 1
    ++ be16 (m.timestamp.year.emod 65536).toNat
    ++ [m.timestamp.month % 256, m.timestamp.day % 256, m.timestamp.hour % 256,
        m.timestamp.minute % 256, m.timestamp.second % 256, m.level.toU8]
    ++ be32 m.timestamp.nanosecond
    ++ be32 m.line
    ++ be16 m.file.length
    ++ m.file

/-- `send_message_v1` of protocol.rs up to the buffer it hands to
`socket.send_to`: a `Some` payload hits `todo!()` (panic); a T1 message
resizes the buffer to `22 + file.len() + 2 + text.len()`, encodes the
header and file name, then writes the 16-bit text length and the text. -/
def send_message_v1 (m : Message) : DRes (List Nat) :=
  match m.value with
  | some _ => .crash
  | none => .ok (encode_header_v1 m 1 ++ be16 m.text.length ++ m.text)

/-- One byte read (`read_u8`): fails on an exhausted buffer. -/
def rdU8 : List Nat → Option (Nat × List Nat)
  | [] => none
  | b :: r => some (b, r)

/-- Big-endian 16-bit read (`read_u16::<NetworkEndian>`). -/
def rdU16 (l : List Nat) : Option (Nat × List Nat) := do
  let (b1, l1) ← rdU8 l
  let (b2, l2) ← rdU8 l1
  pure (b1 * 256 + b2, l2)

/-- Big-endian 32-bit read (`read_u32::<NetworkEndian>`). -/
def rdU32 (l : List Nat) : Option (Nat × List Nat) := do
  let (h1, l1) ← rdU16 l
  let (h2, l2) ← rdU16 l1
  pure (h1 * 65536 + h2, l2)

/-- The thirteen sequential fixed-width reads of `decode_header_v1`,
in the order the Rust struct literal evaluates them; returns the header
(file still empty) and the unread remainder of the buffer. -/
def readHeaderV1 (l : List Nat) : Option (HeaderV1 × List Nat) := do
  let (pv, l1) ← rdU8 l
  let (mt, l2) ← rdU8 l1
  let (mc, l3) ← rdU16 l2
  let (yr, l4) ← rdU16 l3
  let (mo, l5) ← rdU8 l4
  let (dy, l6) ← rdU8 l5
  let (hr, l7) ← rdU8 l6
  let (mi, l8) ← rdU8 l7
  let (sc, l9) ← rdU8 l8
  let (lv, l10) ← rdU8 l9
  let (ns, l11) ← rdU32 l10
  let (ln, l12) ← rdU32 l11
  let (fl, l13) ← rdU16 l12
  pure (⟨pv, mt, mc, yr, mo, dy, hr, mi, sc, lv, ns, ln, fl, []⟩, l13)

/-- Rust UTF-8 validity (RFC 3629 shortest-form encodings, no surrogates),
as `String::from_utf8` checks it. -/
def isValidUtf8 : List Nat → Bool
  | [] => true
  | b :: rest =>
    if b ≤ 127 then isValidUtf8 rest
    else if 194 ≤ b && b ≤ 223 then
      match rest with
      | c1 :: r => (128 ≤ c1 && c1 ≤ 191) && isValidUtf8 r
      | _ => false
    else if b == 224 then
      match rest with
      | c1 :: c2 :: r =>
          (160 ≤ c1 && c1 ≤ 191) && (128 ≤ c2 && c2 ≤ 191) && isValidUtf8 r
      | _ => false
    else if 225 ≤ b && b ≤ 236 then
      match rest with
      | c1 :: c2 :: r =>
          (128 ≤ c1 && c1 ≤ 191) && (128 ≤ c2 && c2 ≤ 191) && isValidUtf8 r
      | _ => false
    else if b == 237 then
      match rest with
      | c1 :: c2 :: r =>
          (128 ≤ c1 && c1 ≤ 159) && (128 ≤ c2 && c2 ≤ 191) && isValidUtf8 r
      | _ => false
    else if 238 ≤ b && b ≤ 239 then
      match rest with
      | c1 :: c2 :: r =>
          (128 ≤ c1 && c1 ≤ 191) && (128 ≤ c2 && c2 ≤ 191) && isValidUtf8 r
      | _ => false
    else if b == 240 then
      match rest with
      | c1 :: c2 :: c3 :: r =>
          (144 ≤ c1 && c1 ≤ 191) && (128 ≤ c2 && c2 ≤ 191) &&
            (128 ≤ c3 && c3 ≤ 191) && isValidUtf8 r
      | _ => false
    else if 241 ≤ b && b ≤ 243 then
      match rest with
      | c1 :: c2 :: c3 :: r =>
          (128 ≤ c1 && c1 ≤ 191) && (128 ≤ c2 && c2 ≤ 191) &&
            (128 ≤ c3 && c3 ≤ 191) && isValidUtf8 r
      | _ => false
    else if b == 244 then
      match rest with
      | c1 :: c2 :: c3 :: r =>
          (128 ≤ c1 && c1 ≤ 143) && (128 ≤ c2 && c2 ≤ 191) &&
            (128 ≤ c3 && c3 ≤ 191) && isValidUtf8 r
      | _ => false
    else false

/-- `decode_header_v1` of protocol.rs: reject buffers shorter than the
fixed header, read the thirteen fields, then take `file_name_len` bytes
for the file name. The Rust slice `buffer[..file_name_len]` panics when
`file_name_len` exceeds the bytes remaining after the fixed header
(`crash`); `String::from_utf8(..).ok()?` turns invalid UTF-8 into `None`. -/
def decode_header_v1 (buffer : List Nat) : DRes HeaderV1 :=
  if buffer.length < HEADER_LEN_V1 then .fail
  else
    match readHeaderV1 buffer with
    | none => .fail
    | some (h, rest) =>
      if rest.length < h.file_name_len then .crash
      else if isValidUtf8 (rest.take h.file_name_len) then
        .ok { h with file := rest.take h.file_name_len }
      else .fail

/-- The validation condition of `receive_message_v1` verbatim:
reject when `protocol_version != 1 || message_count == 0 ||
Level::try_from(level).is_ok()`. Note the last disjunct fires when the
level byte IS a valid severity. -/
def headerRejectV1 (h : HeaderV1) : Bool :=
  (h.protocol_version != 1) || (h.message_count == 0) ||
    (Level.tryFromU8 h.level).isSome

/-- Modelled boundary to the chrono crate:
`Local.with_ymd_and_hms(..).earliest()?` succeeds iff the local calendar
accepts the six fields, which depends on the ambient timezone database, so
it is a Boolean parameter `localOk` of the decoder; the subsequent
`with_nanosecond(ns)?` fails exactly when `ns >= 2_000_000_000`. -/
def mkTsV1 (localOk : Nat → Nat → Nat → Nat → Nat → Nat → Bool)
    (h : HeaderV1) : Option Timestamp :=
  if localOk h.timestamp_year h.timestamp_month h.timestamp_day
      h.timestamp_hour h.timestamp_minute h.timestamp_second then
    if h.timestamp_nanosecond < 2000000000 then
      some ⟨(h.timestamp_year : Int), h.timestamp_month, h.timestamp_day,
            h.timestamp_hour, h.timestamp_minute, h.timestamp_second,
            h.timestamp_nanosecond⟩
    else none
  else none

/-- `receive_message_v1` of protocol.rs applied to one received datagram
`buffer` (the `buffer[0..received_size]` slice) from `sender`: decode the
header, apply the validation condition, then dispatch on `message_type`:
2 hits `todo!()` (panic); 1 rebuilds the message, whose struct literal
evaluates the timestamp fields first and then
`decoded_header.level.try_into().ok()?`; any other type yields `None`.
The rebuilt text is the empty string. -/
def receive_message_v1 (localOk : Nat → Nat → Nat → Nat → Nat → Nat → Bool)
    (sender : String) (buffer : List Nat) : DRes Message :=
  match decode_header_v1 buffer with
  | .crash => .crash
  | .fail => .fail
  | .ok h =>
    if headerRejectV1 h then .fail
    else
      match h.message_type with
      | 2 => .crash
      | 1 =>
        match mkTsV1 localOk h with
        | none => .fail
        | some ts =>
          match Level.tryFromU8 h.level with
          | none => .fail
          | some lv =>
            .ok { timestamp := ts, level := lv, text := [], value := none,
                  file := h.file, line := h.line, sender := some sender }
      | _ => .fail

/-- A `localOk` instance accepting every calendar combination, used to
evaluate the decoder on concrete datagrams. -/
def localOkAll : Nat → Nat → Nat → Nat → Nat → Nat → Bool :=
  fun _ _ _ _ _ _ => true

/-- Delivery decision of the console sink worker of lib.rs (line 103):
render the message iff `message.level >= level`, the closure-captured
threshold. -/
def consoleWorkerDelivers (level : Level) (message : Message) : Bool :=
  Level.ge message.level level

/-- Delivery decision of the file sink worker of lib.rs (line 172):
write the message iff `message.level >= level`. -/
def fileWorkerDelivers (level : Level) (message : Message) : Bool :=
  Level.ge message.level level

/-- Forwarding decision of the receiver polling thread of receiver.rs
(line 37): forward a decoded message iff `message.level >= level`. -/
def receiverForwards (level : Level) (message : Message) : Bool :=
  Level.ge message.level level

/-- Crossbeam `Sender::send` on a bounded channel whose consumer side
state is summarised by `disconnected`: returns `Err` iff the consuming
worker has terminated and the channel is disconnected. -/
def channelSend (disconnected : Bool) : Except Unit Unit :=
  if disconnected then Except.error () else Except.ok ()

/-- The send path of the logging macros of lib.rs (`rel_trace` and its
siblings, line 229): `logger.channel.send(msg).expect(..)`, so an `Err`
from a disconnected channel panics the calling thread. -/
def rel_trace (disconnected : Bool) (msg : Message) : DRes Unit :=
  match channelSend disconnected with
  | Except.error _ => .crash
  | Except.ok _ => .ok ()

/-- `Target` of lib.rs: the three sink kinds. -/
inductive Target where
  | Console
  | File
  | Network
deriving DecidableEq, Repr

/-- Send-side `Logger` of lib.rs: the handle state is its `level` field
(the channel producer handle carries no state the claims inspect). -/
structure Logger where
  level : Level
deriving DecidableEq, Repr

/-- `Logger::set_level` of lib.rs: overwrite the `level` field of this
handle only. -/
def Logger.set_level (l : Logger) (new_level : Level) : Logger :=
  { l with level := new_level }

/-- The derived `Clone` of lib.rs `Logger`: a field-by-field copy. -/
def Logger.clone (l : Logger) : Logger := l

/-- Outcome of `Logger::new` of lib.rs: the returned handle, whether a
worker thread was spawned, what the worker does at start on that thread,
and the filter threshold the worker closure captured by value. -/
structure Construction where
  handle : Logger
  threadSpawned : Bool
  workerStart : DRes Unit
  workerThreshold : Level
deriving DecidableEq, Repr

/-- `Logger::new` of lib.rs. `createOk` summarises whether
`File::create("log.txt")` would succeed (an environment effect).
Console: spawn the worker, return the handle. File: spawn the worker,
return the handle; the worker itself runs `File::create(..).expect(..)`
at start, so a creation failure panics the already-spawned worker thread,
not the constructor. Network: `todo!()` panics the constructor before
any thread is spawned. Both spawned closures capture the constructor
argument `level` by move as their threshold. -/
def Logger.new (createOk : Bool) (level : Level) (target : Target) :
    DRes Construction :=
  match target with
  | .Console => .ok ⟨⟨level⟩, true, .ok (), level⟩
  | .File => .ok ⟨⟨level⟩, true, (if createOk then .ok () else .crash), level⟩
  | .Network => .crash

/-- Outcome of receiver.rs `Logger::new`: the receive-side handle state
and whether the polling thread was spawned. -/
structure RecvConstruction where
  level : Level
  threadSpawned : Bool
deriving DecidableEq, Repr

/-- `Logger::new` of receiver.rs. `bindOk` summarises whether
`UdpSocket::bind(socket)` succeeds (covering both an unparsable address
and a failing bind). A bind failure hits `.expect(..)` and panics the
constructing thread before the polling thread is spawned; on success the
polling thread is spawned and the handle is returned. -/
def RecvLogger.new (bindOk : Bool) (level : Level) : DRes RecvConstruction :=
  if bindOk then .ok ⟨level, true⟩ else .crash

/-! ## Concrete inputs -/

/-- A 22-byte datagram whose header is valid in the sense of the spec:
version 1, type 1, count 1, timestamp 2024-01-01 00:00:00, level byte 2
(Warning), nanosecond 0, line 42, empty file name. -/
def validLevelBuf : List Nat :=
  [1, 1, 0, 1, 7, 232, 1, 1, 0, 0, 0, 2, 0, 0, 0, 0, 0, 0, 0, 42, 0, 0]

/-- The header `decode_header_v1` extracts from `validLevelBuf`. -/
def validLevelHdr : HeaderV1 :=
  ⟨1, 1, 1, 2024, 1, 1, 0, 0, 0, 2, 0, 42, 0, []⟩

/-- The same header with the out-of-range level byte 7. -/
def invalidLevelHdr : HeaderV1 :=
  ⟨1, 1, 1, 2024, 1, 1, 0, 0, 0, 7, 0, 42, 0, []⟩

/-- A 22-byte datagram with `file_name_len = 5` but no bytes after the
fixed header. -/
def oversizeFnlBuf : List Nat :=
  [1, 1, 0, 1, 7, 232, 1, 1, 0, 0, 0, 2, 0, 0, 0, 0, 0, 0, 0, 42, 0, 5]

/-- A 22-byte datagram with `message_type = 2` (T2) that passes the
validation of the source (version 1, count 1, level byte 200 which does
NOT map to a severity, so the inverted check lets it through). -/
def t2Buf : List Nat :=
  [1, 2, 0, 1, 7, 232, 1, 1, 0, 0, 0, 200, 0, 0, 0, 0, 0, 0, 0, 42, 0, 0]

/-- A sample T1 message (value absent). -/
def sampleMsg : Message :=
  ⟨⟨2024, 1, 1, 0, 0, 0, 0⟩, .Warning, [98], none, [97], 42, none⟩

/-- The same message carrying a present typed value: a T2 message. -/
def sampleT2Msg : Message :=
  ⟨⟨2024, 1, 1, 0, 0, 0, 0⟩, .Warning, [98], some (.U8 5), [97], 42, none⟩

example : decode_header_v1 validLevelBuf = DRes.ok validLevelHdr := by decide

/-! ## Claims -/

/-- Claim C1, code_bug evidence. The spec requires the decoder to pass a
header with version 1, count at least 1 and a level byte in 0..4, and to
reject an out-of-range level byte. The source does the opposite on the
level disjunct: `receive_message_v1` on the concrete datagram
`validLevelBuf` (version 1, count 1, level byte 2 = Warning) returns no
message, because `headerRejectV1` — the verbatim validation condition —
is true on its decoded header, while the same condition is false on the
header whose level byte is the out-of-range 7. -/
theorem c1_inverted_level_check :
    receive_message_v1 localOkAll "peer" validLevelBuf = DRes.fail
      ∧ headerRejectV1 validLevelHdr = true
      ∧ headerRejectV1 invalidLevelHdr = false := by decide

/-- Claim C4, code_bug evidence. The spec requires every malformed
datagram to be discarded without panicking, naming a `file_name_len`
larger than the bytes remaining after the fixed header. On the concrete
22-byte datagram `oversizeFnlBuf` (`file_name_len = 5`, zero remaining
bytes) the slice `buffer[..file_name_len]` of `decode_header_v1` is out
of range, so the decode and with it the polling thread panic instead of
discarding. -/
theorem c4_oversize_file_name_len_panics :
    decode_header_v1 oversizeFnlBuf = DRes.crash
      ∧ receive_message_v1 localOkAll "peer" oversizeFnlBuf = DRes.crash := by
  decide

/-- Claim C7, code_bug evidence. The spec requires a send after the
consuming worker terminated to return an explicit queue-closed error.
The macro send path of lib.rs calls `channel.send(msg).expect(..)`, so
with the channel disconnected the calling thread panics instead of
receiving an error result. -/
theorem c7_send_after_close_panics :
    rel_trace true sampleMsg = DRes.crash
      ∧ channelSend true = Except.error () := ⟨by decide, rfl⟩

/-- Claim C8, code_bug evidence. The spec requires a T2 message (present
typed value) to yield an explicit unsupported-payload error in both
directions. The source instead hits `todo!()` and panics: encoding
`sampleT2Msg` panics the network sink worker, and decoding the concrete
datagram `t2Buf` (message_type 2, passing the source validation) panics
the receiver polling thread. -/
theorem c8_t2_payload_panics :
    send_message_v1 sampleT2Msg = DRes.crash
      ∧ receive_message_v1 localOkAll "peer" t2Buf = DRes.crash := by decide

/-- Claim C9, code_bug evidence. The spec requires every construction
failure to surface synchronously as an explicit error with no worker
thread spawned. The source instead: panics the constructor on a bind
failure of receiver.rs `Logger::new` (`.expect`, a crash rather than an
error value); returns a fully constructed file logger whose already
spawned worker thread panics later when `File::create` fails (deferred,
thread spawned); and always panics on `Target::Network` via `todo!()`. -/
theorem c9_construction_failures_panic :
    RecvLogger.new false Level.Trace = DRes.crash
      ∧ Logger.new false Level.Trace Target.File
          = DRes.ok ⟨⟨Level.Trace⟩, true, DRes.crash, Level.Trace⟩
      ∧ Logger.new true Level.Trace Target.Network = DRes.crash := by decide

/-- The UTF-8 bytes of "disk.rs". -/
def c2file : List Nat := [100, 105, 115, 107, 46, 114, 115]

/-- The UTF-8 bytes of "disk nearly full" (16 bytes). -/
def c2text : List Nat :=
  [100, 105, 115, 107, 32, 110, 101, 97, 114, 108, 121, 32, 102, 117, 108, 108]

/-- The round-trip message of the spec: file "disk.rs", line 42, text
"disk nearly full", level Warning, timestamp 2024-01-01T00:00:00.0. -/
def c2msg : Message := ⟨⟨2024, 1, 1, 0, 0, 0, 0⟩, .Warning, c2text, none, c2file, 42, none⟩

/-- The buffer `send_message_v1` builds for `c2msg`, written out byte by
byte: the 22-byte header, the 7 file-name bytes, the 2-byte text length
16, and the 16 text bytes — 47 bytes in total. -/
def c2buf : List Nat :=
  [1, 1, 0, 1, 7, 232, 1, 1, 0, 0, 0, 2, 0, 0, 0, 0, 0, 0, 0, 42, 0, 7,
   100, 105, 115, 107, 46, 114, 115,
   0, 16,
   100, 105, 115, 107, 32, 110, 101, 97, 114, 108, 121, 32, 102, 117, 108, 108]

/-- The header `decode_header_v1` extracts from `c2buf`. -/
def c2hdr : HeaderV1 := ⟨1, 1, 1, 2024, 1, 1, 0, 0, 0, 2, 0, 42, 7, c2file⟩

/-- Claim C2, counterexample. The claim says encoding the round-trip
message yields a 48-byte buffer; the text "disk nearly full" is 16 bytes,
not 17, so the encoder produces 22 + 7 + 2 + 16 = 47 bytes and no run of
`send_message_v1` on `c2msg` returns a 48-byte buffer. -/
theorem c2_not_48_bytes :
    ¬ ∃ buf, send_message_v1 c2msg = DRes.ok buf ∧ buf.length = 48 := by
  rintro ⟨buf, h1, h2⟩
  have he : send_message_v1 c2msg = DRes.ok c2buf := by decide
  rw [he] at h1
  injection h1 with h3
  subst h3
  exact absurd h2 (by decide)

/-- Claim C2 as amended: encoding the round-trip message produces exactly
the 47-byte buffer `c2buf` (22 + 7 + 2 + 16), and decoding that buffer
through `receive_message_v1` yields no message for every calendar and
sender, because the inverted level validation of the source rejects the
valid Warning level byte before the payload is ever reconstructed. -/
theorem c2_roundtrip_amended :
    send_message_v1 c2msg = DRes.ok c2buf
      ∧ c2buf.length = 22 + 7 + 2 + 16
      ∧ ∀ localOk sender, receive_message_v1 localOk sender c2buf = DRes.fail := by
  refine ⟨by decide, by decide, ?_⟩
  intro localOk sender
  have hd : decode_header_v1 c2buf = DRes.ok c2hdr := by decide
  have hr : headerRejectV1 c2hdr = true := by decide
  simp [receive_message_v1, hd, hr]

/-- Claim C3: for every inbound datagram whose message_type byte (offset
1) is not 2, `receive_message_v1` returns no message, whatever the
calendar and sender: the validation only lets through level bytes that do
not map to a severity, and the level conversion in the T1 arm then always
fails, so the receive path never produces a message to forward. -/
theorem c3_non_t2_never_forwarded
    (localOk : Nat → Nat → Nat → Nat → Nat → Nat → Bool) (sender : String)
    (buffer : List Nat) (hmt : buffer.getD 1 0 ≠ 2) (m : Message) :
    receive_message_v1 localOk sender buffer ≠ DRes.ok m := by
  intro hok
  rcases hd : decode_header_v1 buffer with _ | _ | hdr
  · simp only [receive_message_v1, hd] at hok
    exact DRes.noConfusion hok
  · simp only [receive_message_v1, hd] at hok
    exact DRes.noConfusion hok
  · simp only [receive_message_v1, hd] at hok
    by_cases hr : headerRejectV1 hdr = true
    · rw [if_pos hr] at hok
      exact DRes.noConfusion hok
    · have hnone : Level.tryFromU8 hdr.level = none := by
        cases hl : Level.tryFromU8 hdr.level with
        | none => rfl
        | some lv => exact absurd (by simp [headerRejectV1, hl]) hr
      rw [if_neg hr] at hok
      rcases hmt3 : hdr.message_type with _ | _ | _ | k
      · rw [hmt3] at hok
        exact DRes.noConfusion hok
      · rw [hmt3] at hok
        cases hts : mkTsV1 localOk hdr with
        | none =>
          rw [hts] at hok
          exact DRes.noConfusion hok
        | some ts =>
          rw [hts, hnone] at hok
          exact DRes.noConfusion hok
      · rw [hmt3] at hok
        exact DRes.noConfusion hok
      · rw [hmt3] at hok
        exact DRes.noConfusion hok

/-- Witness for C3 at the concrete datagram `validLevelBuf` (message_type
byte 1) and the concrete message `sampleMsg`. -/
theorem c3_non_t2_never_forwarded_witness :
    validLevelBuf.getD 1 0 ≠ 2
      ∧ receive_message_v1 localOkAll "peer" validLevelBuf ≠ DRes.ok sampleMsg :=
  ⟨by decide,
   c3_non_t2_never_forwarded localOkAll "peer" validLevelBuf (by decide) sampleMsg⟩

/-- Claim C5: each of the three workers — console sink, file sink,
receiver polling thread — built with threshold L delivers a message of
level M exactly when M is at least L in the five-level severity order
(discriminant order Trace < Information < Warning < Error < Fatal);
quantifying over both levels covers all 25 combinations. -/
theorem c5_threshold_filtering (threshold : Level) (m : Message) :
    (consoleWorkerDelivers threshold m = true ↔ threshold.toU8 ≤ m.level.toU8)
      ∧ (fileWorkerDelivers threshold m = true ↔ threshold.toU8 ≤ m.level.toU8)
      ∧ (receiverForwards threshold m = true ↔ threshold.toU8 ≤ m.level.toU8) := by
  simp [consoleWorkerDelivers, fileWorkerDelivers, receiverForwards, Level.ge]

/-- The console construction produced by `Logger.new true Level.Trace
Target.Console`, used to instantiate the C10 frame theorem. -/
def c10c : Construction := ⟨⟨Level.Trace⟩, true, DRes.ok (), Level.Trace⟩

/-- Claim C10: on a logger constructed with level L, `set_level n`
yields a handle whose `level` accessor reports n, while the worker
thread keeps the threshold L it captured by value at construction, and a
clone of the original handle still reports L (each handle owns its own
copy of the level field, so no other clone is affected). -/
theorem c10_set_level_frame (L n : Level) (c : Construction)
    (hc : Logger.new true L Target.Console = DRes.ok c) :
    (c.handle.set_level n).level = n
      ∧ c.workerThreshold = L
      ∧ (c.handle.clone).level = L := by
  simp only [Logger.new] at hc
  injection hc with h
  subst h
  exact ⟨rfl, rfl, rfl⟩

/-- Witness for C10 at L = Trace, n = Error and the concrete
construction `c10c`. -/
theorem c10_set_level_frame_witness :
    Logger.new true Level.Trace Target.Console = DRes.ok c10c
      ∧ ((c10c.handle.set_level Level.Error).level = Level.Error
          ∧ c10c.workerThreshold = Level.Trace
          ∧ (c10c.handle.clone).level = Level.Trace) :=
  ⟨by decide, c10_set_level_frame Level.Trace Level.Error c10c (by decide)⟩

/-- Dropping the length of a leading append plus `n` more skips the
leading list. -/
theorem drop_len_add_append (a b : List Nat) (n : Nat) :
    (a ++ b).drop (a.length + n) = b.drop n := by
  induction a with
  | nil => simp
  | cons x xs ih =>
    simp only [List.cons_append, List.length_cons]
    rw [Nat.add_right_comm, List.drop_succ_cons]
    exact ih

/-- Claim C6: for every T1 message (value absent) with file and text
lengths at most 65535 (and the u32 fields in range), the encoder
succeeds and the buffer it builds has total length
22 + file_name_len + 2 + text_length and exactly the layout of the
section 4.2 table: byte 0 is the protocol version 1, byte 1 the T1
message type, bytes 2-3 the big-endian message count 1, bytes 4-5 the
year truncated to u16, bytes 6-10 month, day, hour, minute and second as
u8, byte 11 the level discriminant, bytes 12-15 the big-endian
nanosecond, bytes 16-19 the big-endian line, bytes 20-21 the big-endian
file-name length, then the file-name bytes, a 2-byte big-endian text
length, and the text bytes. -/
theorem c6_wire_layout (ts : Timestamp) (lv : Level) (text file : List Nat)
    (line : Nat) (sender : Option String)
    (hf : file.length ≤ 65535) (ht : text.length ≤ 65535)
    (hn : ts.nanosecond < 4294967296) (hl : line < 4294967296) :
    ∃ buf, send_message_v1 ⟨ts, lv, text, none, file, line, sender⟩ = DRes.ok buf
      ∧ buf.length = 22 + file.length + 2 + text.length
      ∧ sliceVal buf 0 1 = 1
      ∧ sliceVal buf 1 1 = 1
      ∧ sliceVal buf 2 2 = 1
      ∧ sliceVal buf 4 2 = (ts.year.emod 65536).toNat
      ∧ sliceVal buf 6 1 = ts.month % 256
      ∧ sliceVal buf 7 1 = ts.day % 256
      ∧ sliceVal buf 8 1 = ts.hour % 256
      ∧ sliceVal buf 9 1 = ts.minute % 256
      ∧ sliceVal buf 10 1 = ts.second % 256
      ∧ sliceVal buf 11 1 = lv.toU8
      ∧ sliceVal buf 12 4 = ts.nanosecond
      ∧ sliceVal buf 16 4 = line
      ∧ sliceVal buf 20 2 = file.length
      ∧ (buf.drop 22).take file.length = file
      ∧ sliceVal buf (22 + file.length) 2 = text.length
      ∧ buf.drop (22 + file.length + 2) = text := by
  have hy : (ts.year.emod 65536).toNat < 65536 := by
    have h1 : ts.year.emod 65536 < 65536 := Int.emod_lt_of_pos _ (by norm_num)
    omega
  have hbuf : encode_header_v1 ⟨ts, lv, text, none, file, line, sender⟩ 1
        ++ be16 text.length ++ text
      = [1, 1, 0, 1,
         (ts.year.emod 65536).toNat / 256 % 256, (ts.year.emod 65536).toNat % 256,
         ts.month % 256, ts.day % 256, ts.hour % 256, ts.minute % 256,
         ts.second % 256, lv.toU8,
         ts.nanosecond / 16777216 % 256, ts.nanosecond / 65536 % 256,
         ts.nanosecond / 256 % 256, ts.nanosecond % 256,
         line / 16777216 % 256, line / 65536 % 256, line / 256 % 256, line % 256,
         file.length / 256 % 256, file.length % 256]
        ++ (file ++ ((text.length / 256 % 256) :: (text.length % 256) :: text)) := by
    simp [encode_header_v1, be16, be32]
  obtain ⟨hdr22, hhdr, hlen⟩ : ∃ h : List Nat,
      encode_header_v1 ⟨ts, lv, text, none, file, line, sender⟩ 1
          ++ be16 text.length ++ text
        = h ++ (file ++ ((text.length / 256 % 256) :: (text.length % 256) :: text))
        ∧ h.length = 22 := ⟨_, hbuf, rfl⟩
  refine ⟨encode_header_v1 ⟨ts, lv, text, none, file, line, sender⟩ 1
      ++ be16 text.length ++ text,
    rfl, ?_, ?_, ?_, ?_, ?_, ?_, ?_, ?_, ?_, ?_, ?_, ?_, ?_, ?_, ?_, ?_, ?_⟩
  · rw [hbuf]; simp; omega
  · rw [hbuf]; simp [sliceVal, beVal]
  · rw [hbuf]; simp [sliceVal, beVal]
  · rw [hbuf]; simp [sliceVal, beVal]
  · rw [hbuf]; simp [sliceVal, beVal]; omega
  · rw [hbuf]; simp [sliceVal, beVal]
  · rw [hbuf]; simp [sliceVal, beVal]
  · rw [hbuf]; simp [sliceVal, beVal]
  · rw [hbuf]; simp [sliceVal, beVal]
  · rw [hbuf]; simp [sliceVal, beVal]
  · rw [hbuf]; simp [sliceVal, beVal]
  · rw [hbuf]; simp [sliceVal, beVal]; omega
  · rw [hbuf]; simp [sliceVal, beVal]; omega
  · rw [hbuf]; simp [sliceVal, beVal]; omega
  · rw [hhdr, ← hlen]
    simp
  · rw [hhdr, ← hlen]
    unfold sliceVal
    rw [List.drop_append]
    simp [beVal]
    omega
  · rw [hhdr, ← hlen, Nat.add_assoc, List.drop_append]
    rw [drop_len_add_append]
    rfl

/-- Witness for C6: the layout theorem instantiated at the concrete T1
message with timestamp 2024-01-01 00:00:00.0, level Warning, text [98],
file [97], line 42, every hypothesis discharged by evaluation. -/
theorem c6_wire_layout_witness :
    (([97] : List Nat).length ≤ 65535)
      ∧ (([98] : List Nat).length ≤ 65535)
      ∧ ((⟨2024, 1, 1, 0, 0, 0, 0⟩ : Timestamp).nanosecond < 4294967296)
      ∧ ((42 : Nat) < 4294967296)
      ∧ (∃ buf,
          send_message_v1 ⟨⟨2024, 1, 1, 0, 0, 0, 0⟩, .Warning, [98], none, [97], 42, none⟩
              = DRes.ok buf
            ∧ buf.length = 26
            ∧ sliceVal buf 0 1 = 1
            ∧ sliceVal buf 1 1 = 1
            ∧ sliceVal buf 2 2 = 1
            ∧ sliceVal buf 4 2 = 2024
            ∧ sliceVal buf 6 1 = 1
            ∧ sliceVal buf 7 1 = 1
            ∧ sliceVal buf 8 1 = 0
            ∧ sliceVal buf 9 1 = 0
            ∧ sliceVal buf 10 1 = 0
            ∧ sliceVal buf 11 1 = 2
            ∧ sliceVal buf 12 4 = 0
            ∧ sliceVal buf 16 4 = 42
            ∧ sliceVal buf 20 2 = 1
            ∧ (buf.drop 22).take 1 = [97]
            ∧ sliceVal buf 23 2 = 1
            ∧ buf.drop 25 = [98]) :=
  ⟨by decide, by decide, by decide, by decide,
   c6_wire_layout ⟨2024, 1, 1, 0, 0, 0, 0⟩ .Warning [98] [97] 42 none
     (by decide) (by decide) (by decide) (by decide)⟩
